import Mathlib

/-!
# Verification of the telegram-digest assembly pipeline

A shallow embedding of the digest-assembly core of the repository:

* the configuration lookup helpers of `main.py`
  (`get_topic_config`, `is_configured_group`, `get_group_config`,
  `is_excluded_group`),
* the summariser dispatch of `summariser.py`
  (`format_messages_for_prompt`, the four prompt templates,
  `summarise_technical` / `summarise_memes` / `summarise_logistics` /
  `summarise_invites`, `summarise`), and
* the digest assembler `get_digest` of `main.py` (the `/api/digest`
  handler), split into its per-topic and per-group loop bodies
  (`process_topic`, `process_group`).

External collaborators are modelled as oracles passed in explicitly:

* `TgClient` stands for the connected `TelegramDigestClient`: the unread
  listing, the per-forum topic listing, and the two message fetches.  The
  fetches return `Except String (List Msg)`: an `Except.error` models a
  raised exception caught by the `try/except` blocks of `get_digest`.
* `Env.llm` stands for the Anthropic `client.messages.create` call: given
  the full prompt string it returns the generated text or raises.
  `Env.myIdentifiers` models the `MY_IDENTIFIERS` environment variable
  already split and stripped (`MY_NAME` is its first element).

Python dictionaries coming from the YAML configuration or from Telegram
are modelled as structures with `Option` fields exactly where the code
reads them with `dict.get` and a default.
-/

/-- One element of a `topics:` list in `config.yaml`: a dict with a
mandatory `name` and the keys read by `get_digest` via
`topic_config.get("type", "skip")` and `topic_config.get("threshold", 1)`. -/
structure TopicEntry where
  name : String
  type? : Option String
  threshold? : Option Nat
deriving DecidableEq

/-- One element of the `groups:` list in `config.yaml`.  `type?` models the
optional `"type"` key (direct style), `topics` models `group.get("topics", [])`,
`default_type?` the optional `"default_type"` key and `threshold?` the
optional `"threshold"` key. -/
structure GroupEntry where
  name : String
  type? : Option String
  topics : List TopicEntry
  default_type? : Option String
  threshold? : Option Nat
deriving DecidableEq

/-- The loaded `config.yaml` (`CONFIG` in `main.py`): `groups` models
`CONFIG.get("groups", [])`, `excluded_groups` models
`CONFIG.get("excluded_groups", [])` and `show_dm_counts?` the optional
`show_dm_counts` key read via `CONFIG.get("show_dm_counts", True)`. -/
structure Config where
  groups : List GroupEntry
  excluded_groups : List String
  show_dm_counts? : Option Bool
deriving DecidableEq

/-- An entry of `unread["dms"]`, `unread["groups"]` or `unread["supergroups"]`
as produced by `TelegramDigestClient.get_unread_summary`: a dict with
`id`, `name` and `unread_count`. -/
structure ChatItem where
  id : Int
  name : String
  unread_count : Nat
deriving DecidableEq

/-- An entry of the list returned by `get_group_topics`: a dict with `id`,
`title` and (possibly) `unread_count`; `get_digest` reads the latter via
`topic.get("unread_count", 0)`. -/
structure TopicItem where
  id : Int
  title : String
  unread_count? : Option Nat
deriving DecidableEq

/-- The dict returned by `get_unread_summary`. -/
structure UnreadSummary where
  dms : List ChatItem
  groups : List ChatItem
  supergroups : List ChatItem
deriving DecidableEq

/-- A message dict as produced by `get_topic_messages` / `get_chat_messages`
and consumed by `format_messages_for_prompt`, which reads every key with
`dict.get`. -/
structure Msg where
  sender? : Option String
  text? : Option String
  date? : Option String
  reply_to_id? : Option Int
  has_media? : Option Bool
deriving DecidableEq

/-- The conversation source (the connected `TelegramDigestClient`).
`topic_messages` and `chat_messages` may fail (`Except.error` models a
raised exception); in `telegram_client.py` the `limit` and `since_hours`
arguments only shape which messages come back, so they are absorbed into
the oracle. -/
structure TgClient where
  unread : UnreadSummary
  topics : Int → List TopicItem
  topic_messages : Int → Int → Except String (List Msg)
  chat_messages : Int → Except String (List Msg)

/-- Process environment of `summariser.py`: the Anthropic completion call
(prompt in, generated text out, may raise) and `MY_IDENTIFIERS`. -/
structure Env where
  llm : String → Except String String
  myIdentifiers : List String

/-- A `{"name": ..., "count": ...}` entry of `message_counts`. -/
structure CountEntry where
  name : String
  count : Nat
deriving DecidableEq

/-- A forum entry of `message_counts["forums"]`: `forum_data` in
`get_digest`. -/
structure ForumCounts where
  name : String
  total_count : Nat
  topics : List CountEntry
deriving DecidableEq

/-- The `message_counts` dict of the response. -/
structure MessageCounts where
  dms : List CountEntry
  groups : List CountEntry
  forums : List ForumCounts
deriving DecidableEq

/-- A summary record appended to `summaries` by `get_digest`. -/
structure SummaryRecord where
  group : String
  topic : String
  type : String
  message_count : Nat
  summary : String
deriving DecidableEq

/-- The response model (`DigestResponse` in `main.py`; the spec calls it
`DigestResult`). -/
structure DigestResponse where
  message_counts : MessageCounts
  summaries : List SummaryRecord
  errors : List String
deriving DecidableEq

/-! ## Configuration resolver (`main.py`, lines 51-92) -/

/-- Python's `str.lower` as used by the lookup helpers (per-character case
fold; the names involved are matched case-insensitively). -/
def lower (s : String) : String := String.mk (s.data.map Char.toLower)

/-- The scan performed by `get_topic_config` (`main.py:51-68`) over the
`groups:` list: on a case-insensitive group-name match, first try a
case-insensitive topic-name match against the group's `topics` list; if
none matches and the group has a `default_type`, synthesize
`{"name": topic_name, "type": group["default_type"], "threshold": 1}`;
otherwise keep scanning the remaining group entries. -/
def find_topic_config (group_name topic_name : String) : List GroupEntry → Option TopicEntry
  | [] => none
  | g :: rest =>
    if lower g.name == lower group_name then
      match g.topics.find? (fun t => lower t.name == lower topic_name) with
      | some t => some t
      | none =>
        match g.default_type? with
        | some d => some { name := topic_name, type? := some d, threshold? := some 1 }
        | none => find_topic_config group_name topic_name rest
    else find_topic_config group_name topic_name rest

/-- `get_topic_config` of `main.py` (lines 51-68). -/
def get_topic_config (cfg : Config) (group_name topic_name : String) : Option TopicEntry :=
  find_topic_config group_name topic_name cfg.groups

/-- `is_configured_group` of `main.py` (lines 71-76): case-insensitive
membership among configured group names. -/
def is_configured_group (cfg : Config) (group_name : String) : Bool :=
  cfg.groups.any (fun g => lower g.name == lower group_name)

/-- The scan performed by `get_group_config` (`main.py:79-86`): return the
first case-insensitively matching group entry that carries a `"type"` key;
a matching entry without one is skipped and the scan continues. -/
def find_group_config (group_name : String) : List GroupEntry → Option GroupEntry
  | [] => none
  | g :: rest =>
    if lower g.name == lower group_name then
      if g.type?.isSome then some g else find_group_config group_name rest
    else find_group_config group_name rest

/-- `get_group_config` of `main.py` (lines 79-86). -/
def get_group_config (cfg : Config) (group_name : String) : Option GroupEntry :=
  find_group_config group_name cfg.groups

/-- `is_excluded_group` of `main.py` (lines 89-92):
`group_name.lower() in [g.lower() for g in excluded]`. -/
def is_excluded_group (cfg : Config) (group_name : String) : Bool :=
  (cfg.excluded_groups.map lower).contains (lower group_name)

/-! ## Summariser (`summariser.py`) -/

/-- `format_messages_for_prompt` (`summariser.py:21-39`).  A message with
non-empty text yields `[date] sender<reply note>: text`; otherwise a
message with media yields `[date] sender: [media/image]`; otherwise it is
dropped.  The date is truncated to 16 characters and the reply note
appears when `reply_to_id` is truthy (present and non-zero). -/
def format_messages_for_prompt (messages : List Msg) : String :=
  String.intercalate "\n" (messages.filterMap (fun msg =>
    let sender := msg.sender?.getD "Unknown"
    let text := msg.text?.getD ""
    let date := (msg.date?.getD "").take 16
    if text ≠ "" then
      let reply_note :=
        if (match msg.reply_to_id? with
            | some i => i != 0
            | none => false) then " [replying to earlier message]" else ""
      some ("[" ++ date ++ "] " ++ sender ++ reply_note ++ ": " ++ text)
    else if msg.has_media?.getD false then
      some ("[" ++ date ++ "] " ++ sender ++ ": [media/image]")
    else none))

/-- The f-string prompt of `summarise_technical` (`summariser.py:52-75`). -/
def technical_prompt (topic_name messages_text : String) : String :=
  "Summarise this Telegram discussion from the \"" ++ topic_name ++ "\" topic.\n\nMESSAGES:\n"
  ++ messages_text
  ++ "\n\nExtract and format as follows:\n\n## Main Topic(s)\n[What was being discussed - 1-2 sentences]\n\n## Key Arguments\n**Pro/supporting points:**\n- [bullet points]\n\n**Con/opposing points:**\n- [bullet points]\n\n## Links & Papers\n[List top 1-2 most interesting/relevant links or papers mentioned. If many were shared, prioritise the most discussed ones. If none, write \"None mentioned.\"]\n\n## Context Notes\n[If the conversation references previous discussions or assumes context from earlier, note this briefly. If standalone, write \"Self-contained discussion.\"]\n\nBe concise but preserve technical nuance. Use bullet points."

/-- The f-string prompt of `summarise_memes` (`summariser.py:96-113`). -/
def memes_prompt (topic_name messages_text : String) : String :=
  "Summarise the memes shared in this Telegram channel \"" ++ topic_name ++ "\".\n\nMESSAGES:\n"
  ++ messages_text
  ++ "\n\nFormat as follows:\n\n## Top 3 Memes\nFor each meme, provide:\n1. **[Brief description]** - [Why it\x27s funny/relevant]\n   - AI Safety Context: [If this relates to recent AI safety news/events, explain. If not, write \"General humour\"]\n\n2. ...\n\n3. ...\n\nIf fewer than 3 memes were shared, just describe what was shared.\nIf messages describe images you can\x27t see, do your best to infer from context and reactions."

/-- The f-string prompt of `summarise_logistics` (`summariser.py:134-154`);
`MY_NAME` is the first of `MY_IDENTIFIERS` and the full identifier list is
joined with `", "`. -/
def logistics_prompt (env : Env) (topic_name messages_text : String) : String :=
  "Summarise this Telegram coordination/logistics discussion from \"" ++ topic_name ++ "\".\n\nMESSAGES:\n"
  ++ messages_text
  ++ "\n\nExtract and format as follows:\n\n## To-Dos & Action Items\n[List any tasks or action items mentioned, noting who they\x27re assigned to if specified]\n- [ ] [Task] — assigned to: [person or \"unassigned\"]\n\n## Calls for Help\n[Any requests for volunteers, assistance, or input]\n\n## Specifically for "
  ++ env.myIdentifiers.headD ""
  ++ "\n[Anything directly addressed to or mentioning any of: "
  ++ String.intercalate ", " env.myIdentifiers
  ++ ". If nothing, write \"Nothing specific.\"]\n\n## Quick Summary\n[1-2 sentence overview of what was discussed]\n\nBe concise. Focus on actionable items."

/-- The f-string prompt of `summarise_invites` (`summariser.py:175-187`). -/
def invites_prompt (topic_name messages_text : String) : String :=
  "Extract event invites from this Telegram channel \"" ++ topic_name ++ "\".\n\nMESSAGES:\n"
  ++ messages_text
  ++ "\n\nFor each INVITE (ignore replies/discussion), provide a one-liner:\n**[Event name]** — [Date/time] @ [Location] — invited by [Person]\n\nIf any detail is missing, write \"TBD\" for that field.\nOnly list actual invites, not discussion about them.\nIf no invites found, write \"No new invites.\"\n\nKeep it concise - one line per invite."

/-- `summarise_technical` (`summariser.py:42-83`): an empty message list
short-circuits to the placeholder without calling the model. -/
def summarise_technical (env : Env) (messages : List Msg) (topic_name : String) :
    Except String String :=
  if messages.isEmpty then Except.ok "No messages to summarise."
  else env.llm (technical_prompt topic_name (format_messages_for_prompt messages))

/-- `summarise_memes` (`summariser.py:86-121`). -/
def summarise_memes (env : Env) (messages : List Msg) (topic_name : String) :
    Except String String :=
  if messages.isEmpty then Except.ok "No memes to report."
  else env.llm (memes_prompt topic_name (format_messages_for_prompt messages))

/-- `summarise_logistics` (`summariser.py:124-162`). -/
def summarise_logistics (env : Env) (messages : List Msg) (topic_name : String) :
    Except String String :=
  if messages.isEmpty then Except.ok "No messages to summarise."
  else env.llm (logistics_prompt env topic_name (format_messages_for_prompt messages))

/-- `summarise_invites` (`summariser.py:165-195`). -/
def summarise_invites (env : Env) (messages : List Msg) (topic_name : String) :
    Except String String :=
  if messages.isEmpty then Except.ok "No invites to report."
  else env.llm (invites_prompt topic_name (format_messages_for_prompt messages))

/-- `summarise` (`summariser.py:198-224`): `"skip"` returns `None`
(modelled as `Option.none`), the four known styles dispatch to their
template, and any other style falls back to `summarise_logistics`. -/
def summarise (env : Env) (messages : List Msg) (topic_name summary_type : String) :
    Except String (Option String) :=
  if summary_type == "skip" then Except.ok none
  else if summary_type == "technical" then
    (summarise_technical env messages topic_name).map some
  else if summary_type == "memes" then
    (summarise_memes env messages topic_name).map some
  else if summary_type == "logistics" then
    (summarise_logistics env messages topic_name).map some
  else if summary_type == "invites" then
    (summarise_invites env messages topic_name).map some
  else
    (summarise_logistics env messages topic_name).map some

/-! ## Digest assembler (`main.py:101-246`) -/

/-- The summary style that drives the decision for a forum topic: the
`"type"` of the resolved topic config read via
`topic_config.get("type", "skip")` (`main.py:164`); an unresolved topic
(`topic_config` is `None`, `main.py:161-162`) behaves exactly like `"skip"`
(§3 of the spec: resolution order ends in "else skip"). -/
def resolved_topic_style (cfg : Config) (group_name topic_name : String) : String :=
  match get_topic_config cfg group_name topic_name with
  | some tc => tc.type?.getD "skip"
  | none => "skip"

/-- The unread threshold for a forum topic, read via
`topic_config.get("threshold", 1)` (`main.py:165`); 1 when unresolved. -/
def resolved_topic_threshold (cfg : Config) (group_name topic_name : String) : Nat :=
  match get_topic_config cfg group_name topic_name with
  | some tc => tc.threshold?.getD 1
  | none => 1

/-- The body of the per-topic loop of `get_digest` (`main.py:156-193`),
restricted to its summarisation outcome: the first component is the
summary record appended to `summaries` (if any) and the second the error
string appended to `errors` (if any); the unconditional `topic_data`
count append of `main.py:150-154` is modelled separately in
`forum_counts_entry`.  An `Except.error` from the fetch or from
`summarise` models an exception caught by the `try/except` of
`main.py:174-193`. -/
def process_topic (cfg : Config) (env : Env) (tg : TgClient)
    (forum_name : String) (forum_id : Int) (t : TopicItem) :
    Option SummaryRecord × Option String :=
  if !is_configured_group cfg forum_name then (none, none)
  else
    match get_topic_config cfg forum_name t.title with
    | none => (none, none)
    | some tc =>
      if tc.type?.getD "skip" == "skip" then (none, none)
      else if t.unread_count?.getD 0 < tc.threshold?.getD 1 then (none, none)
      else
        match tg.topic_messages forum_id t.id with
        | Except.error e =>
          (none, some ("Error summarising " ++ forum_name ++ "/" ++ t.title ++ ": " ++ e))
        | Except.ok messages =>
          if messages.isEmpty then (none, none)
          else
            match summarise env messages t.title (tc.type?.getD "skip") with
            | Except.error e =>
              (none, some ("Error summarising " ++ forum_name ++ "/" ++ t.title ++ ": " ++ e))
            | Except.ok none => (none, none)
            | Except.ok (some summary_text) =>
              if summary_text.isEmpty then (none, none)
              else
                (some { group := forum_name, topic := t.title,
                        type := tc.type?.getD "skip",
                        message_count := messages.length,
                        summary := summary_text }, none)

/-- The body of the per-group loop of `get_digest` (`main.py:198-240`):
the summarisation outcome for one entry of `unread["groups"]`, with the
same reading of `Except.error` as in `process_topic`. -/
def process_group (cfg : Config) (env : Env) (tg : TgClient) (g : ChatItem) :
    Option SummaryRecord × Option String :=
  if is_excluded_group cfg g.name then (none, none)
  else
    match get_group_config cfg g.name with
    | none => (none, none)
    | some gc =>
      if gc.type?.getD "skip" == "skip" then (none, none)
      else if g.unread_count < gc.threshold?.getD 1 then (none, none)
      else
        match tg.chat_messages g.id with
        | Except.error e =>
          (none, some ("Error summarising " ++ g.name ++ ": " ++ e))
        | Except.ok messages =>
          if messages.isEmpty then (none, none)
          else
            match summarise env messages g.name (gc.type?.getD "skip") with
            | Except.error e =>
              (none, some ("Error summarising " ++ g.name ++ ": " ++ e))
            | Except.ok none => (none, none)
            | Except.ok (some summary_text) =>
              if summary_text.isEmpty then (none, none)
              else
                (some { group := g.name, topic := "(all)",
                        type := gc.type?.getD "skip",
                        message_count := messages.length,
                        summary := summary_text }, none)

/-- The `forum_data` dict built for one non-excluded forum
(`main.py:136-154`, appended at `main.py:195`): the forum's name, its
total unread count and the unconditional per-topic `{"name", "count"}`
list. -/
def forum_counts_entry (tg : TgClient) (f : ChatItem) : ForumCounts :=
  { name := f.name
    total_count := f.unread_count
    topics := (tg.topics f.id).map (fun t => { name := t.title, count := t.unread_count?.getD 0 }) }

/-- All summarisation outcomes of one digest request in iteration order:
the topics of every non-excluded forum (the loop of `main.py:127-195`,
whose `continue` at `main.py:131-132` is the filter), followed by every
entry of `unread["groups"]` (the loop of `main.py:198-240`). -/
def all_outcomes (cfg : Config) (env : Env) (tg : TgClient) :
    List (Option SummaryRecord × Option String) :=
  ((tg.unread.supergroups.filter (fun f => !is_excluded_group cfg f.name)).flatMap
    (fun f => (tg.topics f.id).map (process_topic cfg env tg f.name f.id)))
  ++ tg.unread.groups.map (process_group cfg env tg)

/-- The `/api/digest` handler `get_digest` (`main.py:101-246`):

* `dms` counts only when `CONFIG.get("show_dm_counts", True)` is truthy
  (`main.py:118-121`);
* `groups` counts minus the excluded ones (`main.py:122`);
* one `forum_data` per non-excluded forum (`main.py:127-195`);
* `summaries` and `errors` are the in-order accumulation of the per-topic
  and then per-group outcomes. -/
def get_digest (cfg : Config) (env : Env) (tg : TgClient) : DigestResponse :=
  { message_counts :=
      { dms :=
          if cfg.show_dm_counts?.getD true then
            tg.unread.dms.map (fun d => { name := d.name, count := d.unread_count })
          else []
        groups :=
          (tg.unread.groups.filter (fun g => !is_excluded_group cfg g.name)).map
            (fun g => { name := g.name, count := g.unread_count })
        forums :=
          (tg.unread.supergroups.filter (fun f => !is_excluded_group cfg f.name)).map
            (forum_counts_entry tg) }
    summaries := (all_outcomes cfg env tg).filterMap Prod.fst
    errors := (all_outcomes cfg env tg).filterMap Prod.snd }

/-! ## Shape lemmas for the per-topic and per-group outcomes -/

/-- Any summary record produced for a forum topic carries the forum's name,
the topic's title, the literal configured style tag, and the length of a
non-empty successfully fetched message window. -/
theorem process_topic_fst_eq_some {cfg : Config} {env : Env} {tg : TgClient}
    {fname : String} {fid : Int} {t : TopicItem} {r : SummaryRecord}
    (h : (process_topic cfg env tg fname fid t).1 = some r) :
    r.group = fname ∧ r.topic = t.title ∧ is_configured_group cfg fname = true ∧
    (∃ tc, get_topic_config cfg fname t.title = some tc ∧ r.type = tc.type?.getD "skip") ∧
    ∃ msgs, tg.topic_messages fid t.id = Except.ok msgs ∧
      r.message_count = msgs.length ∧ msgs ≠ [] := by
  cases hconf : is_configured_group cfg fname with
  | false => simp [process_topic, hconf] at h
  | true =>
  cases hcfg : get_topic_config cfg fname t.title with
  | none => simp [process_topic, hconf, hcfg] at h
  | some tc =>
  cases hskip : (tc.type?.getD "skip" == "skip") with
  | true => simp [process_topic, hconf, hcfg, hskip] at h
  | false =>
  cases hthr : decide (t.unread_count?.getD 0 < tc.threshold?.getD 1) with
  | true => simp [process_topic, hconf, hcfg, hskip, of_decide_eq_true hthr] at h
  | false =>
  cases hmsg : tg.topic_messages fid t.id with
  | error e => simp [process_topic, hconf, hcfg, hskip, of_decide_eq_false hthr, hmsg] at h
  | ok msgs =>
  cases hemp : msgs.isEmpty with
  | true => simp [process_topic, hconf, hcfg, hskip, of_decide_eq_false hthr, hmsg, hemp] at h
  | false =>
  cases hsum : summarise env msgs t.title (tc.type?.getD "skip") with
  | error e =>
    simp [process_topic, hconf, hcfg, hskip, of_decide_eq_false hthr, hmsg, hemp, hsum] at h
  | ok so =>
  cases so with
  | none =>
    simp [process_topic, hconf, hcfg, hskip, of_decide_eq_false hthr, hmsg, hemp, hsum] at h
  | some st =>
  cases hst : st.isEmpty with
  | true =>
    simp [process_topic, hconf, hcfg, hskip, of_decide_eq_false hthr, hmsg, hemp, hsum, hst] at h
  | false =>
    simp [process_topic, hconf, hcfg, hskip, of_decide_eq_false hthr, hmsg, hemp, hsum, hst] at h
    refine ⟨by simp [← h], by simp [← h], rfl, ⟨tc, rfl, by simp [← h]⟩,
      ⟨msgs, rfl, by simp [← h], ?_⟩⟩
    intro hnil
    subst hnil
    simp at hemp

/-- Any error string produced for a forum topic is the formatted string of
`main.py:193` identifying the (forum, topic) pair. -/
theorem process_topic_snd_eq_some {cfg : Config} {env : Env} {tg : TgClient}
    {fname : String} {fid : Int} {t : TopicItem} {e : String}
    (h : (process_topic cfg env tg fname fid t).2 = some e) :
    ∃ m, e = "Error summarising " ++ fname ++ "/" ++ t.title ++ ": " ++ m := by
  cases hconf : is_configured_group cfg fname with
  | false => simp [process_topic, hconf] at h
  | true =>
  cases hcfg : get_topic_config cfg fname t.title with
  | none => simp [process_topic, hconf, hcfg] at h
  | some tc =>
  cases hskip : (tc.type?.getD "skip" == "skip") with
  | true => simp [process_topic, hconf, hcfg, hskip] at h
  | false =>
  cases hthr : decide (t.unread_count?.getD 0 < tc.threshold?.getD 1) with
  | true => simp [process_topic, hconf, hcfg, hskip, of_decide_eq_true hthr] at h
  | false =>
  cases hmsg : tg.topic_messages fid t.id with
  | error e' =>
    simp [process_topic, hconf, hcfg, hskip, of_decide_eq_false hthr, hmsg] at h
    exact ⟨e', h.symm⟩
  | ok msgs =>
  cases hemp : msgs.isEmpty with
  | true => simp [process_topic, hconf, hcfg, hskip, of_decide_eq_false hthr, hmsg, hemp] at h
  | false =>
  cases hsum : summarise env msgs t.title (tc.type?.getD "skip") with
  | error e' =>
    simp [process_topic, hconf, hcfg, hskip, of_decide_eq_false hthr, hmsg, hemp, hsum] at h
    exact ⟨e', h.symm⟩
  | ok so =>
  cases so with
  | none =>
    simp [process_topic, hconf, hcfg, hskip, of_decide_eq_false hthr, hmsg, hemp, hsum] at h
  | some st =>
  cases hst : st.isEmpty with
  | true =>
    simp [process_topic, hconf, hcfg, hskip, of_decide_eq_false hthr, hmsg, hemp, hsum, hst] at h
  | false =>
    simp [process_topic, hconf, hcfg, hskip, of_decide_eq_false hthr, hmsg, hemp, hsum, hst] at h

/-- Any summary record produced for a plain group carries the group's name,
the `"(all)"` sentinel topic, the literal configured style tag, and the
length of a non-empty successfully fetched message window; the group is
neither excluded nor unconfigured (it has a direct-style entry). -/
theorem process_group_fst_eq_some {cfg : Config} {env : Env} {tg : TgClient}
    {g : ChatItem} {r : SummaryRecord}
    (h : (process_group cfg env tg g).1 = some r) :
    r.group = g.name ∧ r.topic = "(all)" ∧ is_excluded_group cfg g.name = false ∧
    (∃ gc, get_group_config cfg g.name = some gc ∧ r.type = gc.type?.getD "skip") ∧
    ∃ msgs, tg.chat_messages g.id = Except.ok msgs ∧
      r.message_count = msgs.length ∧ msgs ≠ [] := by
  cases hexc : is_excluded_group cfg g.name with
  | true => simp [process_group, hexc] at h
  | false =>
  cases hcfg : get_group_config cfg g.name with
  | none => simp [process_group, hexc, hcfg] at h
  | some gc =>
  cases hskip : (gc.type?.getD "skip" == "skip") with
  | true => simp [process_group, hexc, hcfg, hskip] at h
  | false =>
  cases hthr : decide (g.unread_count < gc.threshold?.getD 1) with
  | true => simp [process_group, hexc, hcfg, hskip, of_decide_eq_true hthr] at h
  | false =>
  cases hmsg : tg.chat_messages g.id with
  | error e => simp [process_group, hexc, hcfg, hskip, of_decide_eq_false hthr, hmsg] at h
  | ok msgs =>
  cases hemp : msgs.isEmpty with
  | true => simp [process_group, hexc, hcfg, hskip, of_decide_eq_false hthr, hmsg, hemp] at h
  | false =>
  cases hsum : summarise env msgs g.name (gc.type?.getD "skip") with
  | error e =>
    simp [process_group, hexc, hcfg, hskip, of_decide_eq_false hthr, hmsg, hemp, hsum] at h
  | ok so =>
  cases so with
  | none =>
    simp [process_group, hexc, hcfg, hskip, of_decide_eq_false hthr, hmsg, hemp, hsum] at h
  | some st =>
  cases hst : st.isEmpty with
  | true =>
    simp [process_group, hexc, hcfg, hskip, of_decide_eq_false hthr, hmsg, hemp, hsum, hst] at h
  | false =>
    simp [process_group, hexc, hcfg, hskip, of_decide_eq_false hthr, hmsg, hemp, hsum, hst] at h
    refine ⟨by simp [← h], by simp [← h], rfl, ⟨gc, rfl, by simp [← h]⟩,
      ⟨msgs, rfl, by simp [← h], ?_⟩⟩
    intro hnil
    subst hnil
    simp at hemp

/-- An excluded plain group contributes nothing to summaries or errors
(the `continue` of `main.py:204-205`). -/
theorem process_group_of_excluded {cfg : Config} {env : Env} {tg : TgClient} {g : ChatItem}
    (h : is_excluded_group cfg g.name = true) :
    process_group cfg env tg g = (none, none) := by
  simp [process_group, h]

/-! ## Decomposition of a digest into per-item contributions -/

/-- A record is in `summaries` exactly when some summarisation outcome
produced it. -/
theorem mem_summaries_iff {cfg : Config} {env : Env} {tg : TgClient} {s : SummaryRecord} :
    s ∈ (get_digest cfg env tg).summaries ↔
      ∃ o ∈ all_outcomes cfg env tg, o.1 = some s := by
  simp [get_digest, List.mem_filterMap]

/-- Every summarisation outcome comes either from a topic of a
non-excluded forum or from an entry of `unread["groups"]`. -/
theorem outcome_cases {cfg : Config} {env : Env} {tg : TgClient}
    {o : Option SummaryRecord × Option String} (h : o ∈ all_outcomes cfg env tg) :
    (∃ f, f ∈ tg.unread.supergroups ∧ is_excluded_group cfg f.name = false ∧
      ∃ t, t ∈ tg.topics f.id ∧ o = process_topic cfg env tg f.name f.id t) ∨
    (∃ g, g ∈ tg.unread.groups ∧ o = process_group cfg env tg g) := by
  simp only [all_outcomes, List.mem_append, List.mem_flatMap, List.mem_map,
    List.mem_filter, Bool.not_eq_true'] at h
  rcases h with ⟨f, ⟨hf, hfe⟩, t, ht, rfl⟩ | ⟨g, hg, rfl⟩
  · exact Or.inl ⟨f, hf, hfe, t, ht, rfl⟩
  · exact Or.inr ⟨g, hg, rfl⟩

/-- The count entry of any non-excluded unread group appears in the
`groups` counts. -/
theorem group_count_mem {cfg : Config} {env : Env} {tg : TgClient} {g : ChatItem}
    (hg : g ∈ tg.unread.groups) (hexc : is_excluded_group cfg g.name = false) :
    ({ name := g.name, count := g.unread_count } : CountEntry) ∈
      (get_digest cfg env tg).message_counts.groups := by
  simp only [get_digest, List.mem_map, List.mem_filter, Bool.not_eq_true']
  exact ⟨g, ⟨hg, hexc⟩, rfl⟩

/-- The `forum_data` entry of any non-excluded unread forum appears in the
`forums` counts. -/
theorem forum_counts_mem {cfg : Config} {env : Env} {tg : TgClient} {f : ChatItem}
    (hf : f ∈ tg.unread.supergroups) (hexc : is_excluded_group cfg f.name = false) :
    forum_counts_entry tg f ∈ (get_digest cfg env tg).message_counts.forums := by
  simp only [get_digest, List.mem_map, List.mem_filter, Bool.not_eq_true']
  exact ⟨f, ⟨hf, hexc⟩, rfl⟩

/-! ## Lemmas about the configuration lookups -/

/-- Inversion for the `get_group_config` scan: a returned entry is a
case-insensitively matching configured entry carrying a `"type"` key. -/
theorem find_group_config_eq_some {n : String} {l : List GroupEntry} {g : GroupEntry}
    (h : find_group_config n l = some g) :
    g ∈ l ∧ lower g.name = lower n ∧ g.type?.isSome = true := by
  induction l with
  | nil => simp [find_group_config] at h
  | cons a rest ih =>
    simp only [find_group_config] at h
    split at h
    next hname =>
      split at h
      next htype =>
        cases h
        exact ⟨List.mem_cons_self _ _, eq_of_beq hname, htype⟩
      next htype =>
        obtain ⟨hm, hn, ht⟩ := ih h
        exact ⟨List.mem_cons_of_mem a hm, hn, ht⟩
    next hname =>
      obtain ⟨hm, hn, ht⟩ := ih h
      exact ⟨List.mem_cons_of_mem a hm, hn, ht⟩

/-- The `get_group_config` scan returns nothing exactly when every
case-insensitively matching entry lacks a `"type"` key. -/
theorem find_group_config_eq_none {n : String} {l : List GroupEntry} :
    find_group_config n l = none ↔
      ∀ g ∈ l, lower g.name = lower n → g.type? = none := by
  induction l with
  | nil => simp [find_group_config]
  | cons a rest ih =>
    simp only [find_group_config]
    split
    next hname =>
      split
      next htype =>
        simp only [reduceCtorEq, false_iff]
        intro hall
        have := hall a (List.mem_cons_self a rest) (eq_of_beq hname)
        rw [this] at htype
        simp at htype
      next htype =>
        rw [ih]
        constructor
        · intro hall g hg hgname
          rcases List.mem_cons.mp hg with rfl | hg'
          · exact Option.not_isSome_iff_eq_none.mp (by simp [htype])
          · exact hall g hg' hgname
        · intro hall g hg hgname
          exact hall g (List.mem_cons_of_mem a hg) hgname
    next hname =>
      rw [ih]
      constructor
      · intro hall g hg hgname
        rcases List.mem_cons.mp hg with rfl | hg'
        · exact absurd (beq_of_eq hgname) (by simpa using hname)
        · exact hall g hg' hgname
      · intro hall g hg hgname
        exact hall g (List.mem_cons_of_mem a hg) hgname

/-- A group with a resolved group policy is a configured group. -/
theorem is_configured_of_get_group_config {cfg : Config} {n : String} {g : GroupEntry}
    (h : get_group_config cfg n = some g) : is_configured_group cfg n = true := by
  obtain ⟨hm, hn, -⟩ := find_group_config_eq_some h
  simp only [is_configured_group, List.any_eq_true]
  exact ⟨g, hm, beq_of_eq hn⟩

/-- A group absent from the configuration has no group policy. -/
theorem get_group_config_eq_none_of_not_configured {cfg : Config} {n : String}
    (h : is_configured_group cfg n = false) : get_group_config cfg n = none := by
  cases hg : get_group_config cfg n with
  | none => rfl
  | some g =>
    rw [is_configured_of_get_group_config hg] at h
    cases h

/-- A topic of an unconfigured forum contributes nothing (the `continue`
of `main.py:157-158`). -/
theorem process_topic_of_not_configured {cfg : Config} {env : Env} {tg : TgClient}
    {fname : String} {fid : Int} {t : TopicItem}
    (h : is_configured_group cfg fname = false) :
    process_topic cfg env tg fname fid t = (none, none) := by
  simp [process_topic, h]

/-- An unconfigured plain group contributes nothing (its group-config
lookup fails, `main.py:208-210`). -/
theorem process_group_of_not_configured {cfg : Config} {env : Env} {tg : TgClient}
    {g : ChatItem} (h : is_configured_group cfg g.name = false) :
    process_group cfg env tg g = (none, none) := by
  cases hexc : is_excluded_group cfg g.name with
  | true => simp [process_group, hexc]
  | false => simp [process_group, hexc, get_group_config_eq_none_of_not_configured h]

/-- Inversion for the `get_topic_config` scan: a returned policy is either
a configured topic entry matched case-insensitively inside a matching
group entry, or the synthesized default policy (default style, threshold
exactly 1) of a matching group entry none of whose topics matches. -/
theorem find_topic_config_eq_some {gname tname : String} {l : List GroupEntry} {t : TopicEntry}
    (h : find_topic_config gname tname l = some t) :
    (∃ g, g ∈ l ∧ lower g.name = lower gname ∧ t ∈ g.topics ∧ lower t.name = lower tname) ∨
    (∃ g, g ∈ l ∧ lower g.name = lower gname ∧
      (∀ tp ∈ g.topics, lower tp.name ≠ lower tname) ∧
      ∃ d, g.default_type? = some d ∧
        t = { name := tname, type? := some d, threshold? := some 1 }) := by
  induction l with
  | nil => simp [find_topic_config] at h
  | cons a rest ih =>
    simp only [find_topic_config] at h
    split at h
    next hname =>
      cases hfind : a.topics.find? (fun tp => lower tp.name == lower tname) with
      | some tp =>
        rw [hfind] at h
        cases h
        have hp : (lower t.name == lower tname) = true := by
          simpa using List.find?_some hfind
        exact Or.inl ⟨a, List.mem_cons_self _ _, eq_of_beq hname,
          List.mem_of_find?_eq_some hfind, eq_of_beq hp⟩
      | none =>
        rw [hfind] at h
        have hnomatch : ∀ tp ∈ a.topics, lower tp.name ≠ lower tname := by
          intro tp htp
          have := List.find?_eq_none.mp hfind tp htp
          simpa using this
        cases hdef : a.default_type? with
        | some d =>
          rw [hdef] at h
          cases h
          exact Or.inr ⟨a, List.mem_cons_self _ _, eq_of_beq hname, hnomatch, d, hdef, rfl⟩
        | none =>
          rw [hdef] at h
          rcases ih h with ⟨g, hg, h1, h2, h3⟩ | ⟨g, hg, h1, h2, h3⟩
          · exact Or.inl ⟨g, List.mem_cons_of_mem a hg, h1, h2, h3⟩
          · exact Or.inr ⟨g, List.mem_cons_of_mem a hg, h1, h2, h3⟩
    next hname =>
      rcases ih h with ⟨g, hg, h1, h2, h3⟩ | ⟨g, hg, h1, h2, h3⟩
      · exact Or.inl ⟨g, List.mem_cons_of_mem a hg, h1, h2, h3⟩
      · exact Or.inr ⟨g, List.mem_cons_of_mem a hg, h1, h2, h3⟩

/-- When the `get_topic_config` scan returns nothing, every
case-insensitively matching group entry has no matching topic and no
default style. -/
theorem find_topic_config_eq_none {gname tname : String} {l : List GroupEntry}
    (h : find_topic_config gname tname l = none) :
    ∀ g ∈ l, lower g.name = lower gname →
      (∀ tp ∈ g.topics, lower tp.name ≠ lower tname) ∧ g.default_type? = none := by
  induction l with
  | nil => simp
  | cons a rest ih =>
    simp only [find_topic_config] at h
    split at h
    next hname =>
      cases hfind : a.topics.find? (fun tp => lower tp.name == lower tname) with
      | some tp => rw [hfind] at h; cases h
      | none =>
        rw [hfind] at h
        cases hdef : a.default_type? with
        | some d => rw [hdef] at h; cases h
        | none =>
          rw [hdef] at h
          intro g hg hgname
          rcases List.mem_cons.mp hg with rfl | hg'
          · refine ⟨?_, hdef⟩
            intro tp htp
            have := List.find?_eq_none.mp hfind tp htp
            simpa using this
          · exact ih h g hg' hgname
    next hname =>
      intro g hg hgname
      rcases List.mem_cons.mp hg with rfl | hg'
      · exact absurd (beq_of_eq hgname) (by simpa using hname)
      · exact ih h g hg' hgname

/-! ## Concrete fixtures

A small concrete configuration and conversation-source state used to
instantiate the claim theorems.  `cfgW`/`tgW` mirror the spec's §8
scenario: forum "Team" with topic "Eng" (style technical, threshold 3,
unread 5) and topic "Random" (caught by the default style "skip",
unread 10), a configured plain group "Chat", an excluded group "Secret",
an unconfigured group "Rand" and an unconfigured forum "Misc", with
direct-message counts hidden. -/

/-- A sample fetched message. -/
def mW : Msg :=
  { sender? := some "Alice", text? := some "hello", date? := some "2024-01-15T10:00:00",
    reply_to_id? := none, has_media? := some false }

/-- Sample configuration (see the fixtures section header). -/
def cfgW : Config :=
  { groups :=
      [ { name := "Team", type? := none,
          topics := [{ name := "Eng", type? := some "technical", threshold? := some 3 }],
          default_type? := some "skip", threshold? := none },
        { name := "Chat", type? := some "logistics", topics := [],
          default_type? := none, threshold? := some 1 } ]
    excluded_groups := ["Secret"]
    show_dm_counts? := some false }

/-- Sample environment: a generation backend that always returns
`"SUMMARY"`. -/
def envW : Env :=
  { llm := fun _ => Except.ok "SUMMARY", myIdentifiers := ["Marta"] }

/-- Sample conversation-source state (see the fixtures section header). -/
def tgW : TgClient :=
  { unread :=
      { dms := [{ id := 1, name := "Alice", unread_count := 2 }]
        groups :=
          [ { id := 200, name := "Chat", unread_count := 3 },
            { id := 201, name := "Secret", unread_count := 9 },
            { id := 202, name := "Rand", unread_count := 4 } ]
        supergroups :=
          [ { id := 100, name := "Team", unread_count := 7 },
            { id := 101, name := "Misc", unread_count := 2 } ] }
    topics := fun fid =>
      if fid == 100 then
        [ { id := 11, title := "Eng", unread_count? := some 5 },
          { id := 12, title := "Random", unread_count? := some 10 } ]
      else if fid == 101 then
        [ { id := 21, title := "General", unread_count? := some 2 } ]
      else []
    topic_messages := fun _ tid => if tid == 11 then Except.ok [mW] else Except.ok []
    chat_messages := fun cid => if cid == 200 then Except.ok [mW, mW] else Except.ok [] }

/-! ## Claims -/

/-- C1: for every conversation whose name is in the global exclusion list
(matched case-insensitively), the digest contains no count entry for it —
neither in `groups` nor in `forums` — and no summary record referencing
it, for every configuration, environment and conversation-source state.
(Direct-message counts are outside the claim: the exclusion list is only
ever applied to groups and forums.) -/
theorem claim_C1_excluded_conversations_never_appear
    (cfg : Config) (env : Env) (tg : TgClient) (name : String)
    (h : is_excluded_group cfg name = true) :
    (∀ e ∈ (get_digest cfg env tg).message_counts.groups, e.name ≠ name) ∧
    (∀ fc ∈ (get_digest cfg env tg).message_counts.forums, fc.name ≠ name) ∧
    (∀ s ∈ (get_digest cfg env tg).summaries, s.group ≠ name) := by
  refine ⟨?_, ?_, ?_⟩
  · intro e he
    simp only [get_digest, List.mem_map, List.mem_filter, Bool.not_eq_true'] at he
    obtain ⟨g, ⟨hg, hexc⟩, rfl⟩ := he
    intro hn
    simp only at hn
    rw [hn, h] at hexc
    cases hexc
  · intro fc hfc
    simp only [get_digest, List.mem_map, List.mem_filter, Bool.not_eq_true'] at hfc
    obtain ⟨f, ⟨hf, hexc⟩, rfl⟩ := hfc
    intro hn
    simp only [forum_counts_entry] at hn
    rw [hn, h] at hexc
    cases hexc
  · intro s hs
    obtain ⟨o, ho, hfst⟩ := mem_summaries_iff.mp hs
    intro hn
    rcases outcome_cases ho with ⟨f, hf, hexc, t, ht, rfl⟩ | ⟨g, hg, rfl⟩
    · obtain ⟨hgrp, -⟩ := process_topic_fst_eq_some hfst
      rw [← hgrp, hn, h] at hexc
      cases hexc
    · obtain ⟨hgrp, -, hexc, -⟩ := process_group_fst_eq_some hfst
      rw [← hgrp, hn, h] at hexc
      cases hexc

/-- Witness for C1 at the concrete fixture: "Secret" is excluded and
appears nowhere in the digest. -/
theorem claim_C1_witness :
    is_excluded_group cfgW "Secret" = true ∧
    ((∀ e ∈ (get_digest cfgW envW tgW).message_counts.groups, e.name ≠ "Secret") ∧
     (∀ fc ∈ (get_digest cfgW envW tgW).message_counts.forums, fc.name ≠ "Secret") ∧
     (∀ s ∈ (get_digest cfgW envW tgW).summaries, s.group ≠ "Secret")) :=
  ⟨by decide, claim_C1_excluded_conversations_never_appear cfgW envW tgW "Secret" (by decide)⟩

/-- C2: for every forum topic, if the resolved style is `"skip"` or the
topic's unread count is below the resolved threshold, the topic's
summarisation outcome is empty — no summary record and no error — and,
because `env` and `tg` are universally quantified, this holds whatever the
fetch and generation oracles would return, i.e. no summarisation attempt
is observable (contrapositive: an attempt happens only when the resolved
style is not `"skip"` and unread ≥ threshold).  The topic's name and
unread count nevertheless appear in the forum's topic-count list, which in
turn appears in the digest for every non-excluded listed forum. -/
theorem claim_C2_threshold_and_skip_gating
    (cfg : Config) (env : Env) (tg : TgClient) (forum : ChatItem) (t : TopicItem) :
    (resolved_topic_style cfg forum.name t.title = "skip" ∨
       t.unread_count?.getD 0 < resolved_topic_threshold cfg forum.name t.title →
     process_topic cfg env tg forum.name forum.id t = (none, none)) ∧
    (t ∈ tg.topics forum.id →
     ({ name := t.title, count := t.unread_count?.getD 0 } : CountEntry) ∈
       (forum_counts_entry tg forum).topics) ∧
    (forum ∈ tg.unread.supergroups → is_excluded_group cfg forum.name = false →
     forum_counts_entry tg forum ∈ (get_digest cfg env tg).message_counts.forums) := by
  refine ⟨?_, ?_, ?_⟩
  · intro h
    cases hconf : is_configured_group cfg forum.name with
    | false => exact process_topic_of_not_configured hconf
    | true =>
      cases hcfg : get_topic_config cfg forum.name t.title with
      | none => simp [process_topic, hconf, hcfg]
      | some tc =>
        rcases h with hsk | hthr
        · simp only [resolved_topic_style, hcfg] at hsk
          simp [process_topic, hconf, hcfg, hsk]
        · simp only [resolved_topic_threshold, hcfg] at hthr
          cases hsk2 : (tc.type?.getD "skip" == "skip") with
          | true => simp [process_topic, hconf, hcfg, hsk2]
          | false => simp [process_topic, hconf, hcfg, hsk2, hthr]
  · intro ht
    simp only [forum_counts_entry, List.mem_map]
    exact ⟨t, ht, rfl⟩
  · intro hf hexc
    exact forum_counts_mem hf hexc

/-- Witness for C2 at the concrete fixture: topic "Random" of forum "Team"
resolves to the default style "skip", contributes no summary and no error,
and still appears with its unread count in the forum's topic-count list
inside the digest. -/
theorem claim_C2_witness :
    resolved_topic_style cfgW "Team" "Random" = "skip" ∧
    process_topic cfgW envW tgW "Team" 100
      { id := 12, title := "Random", unread_count? := some 10 } = (none, none) ∧
    ({ name := "Random", count := 10 } : CountEntry) ∈
      (forum_counts_entry tgW { id := 100, name := "Team", unread_count := 7 }).topics ∧
    forum_counts_entry tgW { id := 100, name := "Team", unread_count := 7 } ∈
      (get_digest cfgW envW tgW).message_counts.forums :=
  ⟨by decide,
   (claim_C2_threshold_and_skip_gating cfgW envW tgW
      { id := 100, name := "Team", unread_count := 7 }
      { id := 12, title := "Random", unread_count? := some 10 }).1 (Or.inl (by decide)),
   (claim_C2_threshold_and_skip_gating cfgW envW tgW
      { id := 100, name := "Team", unread_count := 7 }
      { id := 12, title := "Random", unread_count? := some 10 }).2.1 (by decide),
   (claim_C2_threshold_and_skip_gating cfgW envW tgW
      { id := 100, name := "Team", unread_count := 7 }
      { id := 12, title := "Random", unread_count? := some 10 }).2.2 (by decide) (by decide)⟩

/-- Every summary record in a digest names a configured conversation. -/
theorem summaries_group_configured {cfg : Config} {env : Env} {tg : TgClient}
    {s : SummaryRecord} (hs : s ∈ (get_digest cfg env tg).summaries) :
    is_configured_group cfg s.group = true := by
  obtain ⟨o, ho, hfst⟩ := mem_summaries_iff.mp hs
  rcases outcome_cases ho with ⟨f, hf, hexc, t, ht, rfl⟩ | ⟨g, hg, rfl⟩
  · obtain ⟨hgrp, -, hconf, -⟩ := process_topic_fst_eq_some hfst
    rw [hgrp]
    exact hconf
  · obtain ⟨hgrp, -, -, ⟨gc, hgc, -⟩, -⟩ := process_group_fst_eq_some hfst
    rw [hgrp]
    exact is_configured_of_get_group_config hgc

/-- Configuration and conversation-source state refuting C3 as stated:
"Ghost" is in the exclusion list but matches no configuration entry in
`groups`. -/
def cfgX : Config :=
  { groups := [], excluded_groups := ["Ghost"], show_dm_counts? := some true }

/-- Conversation-source state for the C3 counterexample: the source
reports the unconfigured group "Ghost" with 5 unread messages. -/
def tgX : TgClient :=
  { unread :=
      { dms := []
        groups := [{ id := 300, name := "Ghost", unread_count := 5 }]
        supergroups := [] }
    topics := fun _ => []
    topic_messages := fun _ _ => Except.ok []
    chat_messages := fun _ => Except.ok [] }

/-- Counterexample to C3 as stated: the conversation "Ghost" matches no
configuration entry and is reported unread by the source, yet the digest
reports no unread count for it at all (its `groups` count list is empty),
because "Ghost" is in the global exclusion list.  So "counts are reported"
fails for conversations that match no configuration entry but are
excluded. -/
theorem claim_C3_counterexample :
    is_configured_group cfgX "Ghost" = false ∧
    ({ id := 300, name := "Ghost", unread_count := 5 } : ChatItem) ∈ tgX.unread.groups ∧
    (get_digest cfgX envW tgX).message_counts.groups = [] := by
  refine ⟨by decide, by decide, by decide⟩

/-- C3 (amended): for every conversation — plain group or forum — whose
name matches no configuration entry **and is not in the global exclusion
list**, the digest reports its unread counts, its summarisation outcome is
empty for every fetch/generation oracle (no attempt is observable), and no
summary record referencing its name appears. -/
theorem claim_C3_amended_unconfigured_counts_only
    (cfg : Config) (env : Env) (tg : TgClient) :
    (∀ g ∈ tg.unread.groups, is_configured_group cfg g.name = false →
       is_excluded_group cfg g.name = false →
       ({ name := g.name, count := g.unread_count } : CountEntry) ∈
         (get_digest cfg env tg).message_counts.groups ∧
       process_group cfg env tg g = (none, none) ∧
       ∀ s ∈ (get_digest cfg env tg).summaries, s.group ≠ g.name) ∧
    (∀ f ∈ tg.unread.supergroups, is_configured_group cfg f.name = false →
       is_excluded_group cfg f.name = false →
       forum_counts_entry tg f ∈ (get_digest cfg env tg).message_counts.forums ∧
       (∀ t ∈ tg.topics f.id, process_topic cfg env tg f.name f.id t = (none, none)) ∧
       ∀ s ∈ (get_digest cfg env tg).summaries, s.group ≠ f.name) := by
  constructor
  · intro g hg hconf hexc
    refine ⟨group_count_mem hg hexc, process_group_of_not_configured hconf, ?_⟩
    intro s hs hn
    have hc := summaries_group_configured hs
    rw [hn, hconf] at hc
    cases hc
  · intro f hf hconf hexc
    refine ⟨forum_counts_mem hf hexc, ?_, ?_⟩
    · intro t ht
      exact process_topic_of_not_configured hconf
    · intro s hs hn
      have hc := summaries_group_configured hs
      rw [hn, hconf] at hc
      cases hc

/-- Witness for the amended C3 at the concrete fixture: the unconfigured,
non-excluded group "Rand" and forum "Misc". -/
theorem claim_C3_witness :
    (is_configured_group cfgW "Rand" = false ∧ is_excluded_group cfgW "Rand" = false ∧
     ({ name := "Rand", count := 4 } : CountEntry) ∈
       (get_digest cfgW envW tgW).message_counts.groups ∧
     process_group cfgW envW tgW { id := 202, name := "Rand", unread_count := 4 } =
       (none, none) ∧
     ∀ s ∈ (get_digest cfgW envW tgW).summaries, s.group ≠ "Rand") ∧
    (is_configured_group cfgW "Misc" = false ∧
     forum_counts_entry tgW { id := 101, name := "Misc", unread_count := 2 } ∈
       (get_digest cfgW envW tgW).message_counts.forums) :=
  ⟨⟨by decide, by decide,
    ((claim_C3_amended_unconfigured_counts_only cfgW envW tgW).1
      { id := 202, name := "Rand", unread_count := 4 } (by decide) (by decide) (by decide)).1,
    ((claim_C3_amended_unconfigured_counts_only cfgW envW tgW).1
      { id := 202, name := "Rand", unread_count := 4 } (by decide) (by decide) (by decide)).2.1,
    ((claim_C3_amended_unconfigured_counts_only cfgW envW tgW).1
      { id := 202, name := "Rand", unread_count := 4 } (by decide) (by decide) (by decide)).2.2⟩,
   ⟨by decide,
    ((claim_C3_amended_unconfigured_counts_only cfgW envW tgW).2
      { id := 101, name := "Misc", unread_count := 2 } (by decide) (by decide) (by decide)).1⟩⟩

/-- C4: topic-policy resolution.  Any returned policy is either a
configured topic entry matched case-insensitively inside a
case-insensitively matching conversation entry, or — when no topic of the
matching entry matches — a synthesized policy whose style is that entry's
default style and whose threshold is exactly 1; and when resolution
returns none, every case-insensitively matching conversation entry has
neither a matching topic nor a default style (so in particular a match or
a default always yields a policy). -/
theorem claim_C4_topic_policy_resolution (cfg : Config) (gname tname : String) :
    (∀ t, get_topic_config cfg gname tname = some t →
      (∃ g, g ∈ cfg.groups ∧ lower g.name = lower gname ∧
        t ∈ g.topics ∧ lower t.name = lower tname) ∨
      (∃ g, g ∈ cfg.groups ∧ lower g.name = lower gname ∧
        (∀ tp ∈ g.topics, lower tp.name ≠ lower tname) ∧
        ∃ d, g.default_type? = some d ∧
          t = { name := tname, type? := some d, threshold? := some 1 })) ∧
    (get_topic_config cfg gname tname = none →
      ∀ g ∈ cfg.groups, lower g.name = lower gname →
        (∀ tp ∈ g.topics, lower tp.name ≠ lower tname) ∧ g.default_type? = none) := by
  constructor
  · intro t h
    exact find_topic_config_eq_some h
  · intro h
    exact find_topic_config_eq_none h

/-- Witness for C4 at the concrete fixture: `("team", "ENG")` resolves
case-insensitively to the configured topic entry of "Team"/"Eng", and a
name matching no entry resolves to none with the characterisation holding
vacuously. -/
theorem claim_C4_witness :
    (get_topic_config cfgW "team" "ENG" =
      some { name := "Eng", type? := some "technical", threshold? := some 3 }) ∧
    ((∃ g, g ∈ cfgW.groups ∧ lower g.name = lower "team" ∧
        ({ name := "Eng", type? := some "technical", threshold? := some 3 } : TopicEntry) ∈
          g.topics ∧ lower "Eng" = lower "ENG") ∨
     (∃ g, g ∈ cfgW.groups ∧ lower g.name = lower "team" ∧
        (∀ tp ∈ g.topics, lower tp.name ≠ lower "ENG") ∧
        ∃ d, g.default_type? = some d ∧
          ({ name := "Eng", type? := some "technical", threshold? := some 3 } : TopicEntry) =
            { name := "ENG", type? := some d, threshold? := some 1 })) ∧
    (get_topic_config cfgW "Nope" "X" = none ∧
     ∀ g ∈ cfgW.groups, lower g.name = lower "Nope" →
       (∀ tp ∈ g.topics, lower tp.name ≠ lower "X") ∧ g.default_type? = none) :=
  ⟨by decide,
   (claim_C4_topic_policy_resolution cfgW "team" "ENG").1 _ (by decide),
   by decide,
   (claim_C4_topic_policy_resolution cfgW "Nope" "X").2 (by decide)⟩

/-- A configuration entry carrying both a direct style and a topic list,
used to refute C5 as stated. -/
def gC5 : GroupEntry :=
  { name := "G", type? := some "technical",
    topics := [{ name := "T", type? := some "memes", threshold? := some 2 }],
    default_type? := none, threshold? := none }

/-- Configuration for the C5 counterexample. -/
def cfgC5 : Config :=
  { groups := [gC5], excluded_groups := [], show_dm_counts? := none }

/-- Counterexample to C5 as stated: `get_group_config` resolves "g" to the
entry `gC5` even though that entry carries a (non-empty) topic list — the
code only checks for the presence of a direct `"type"` key and never that
the entry has no topic list. -/
theorem claim_C5_counterexample :
    get_group_config cfgC5 "g" = some gC5 ∧ gC5.topics ≠ [] := by
  refine ⟨by decide, by decide⟩

/-- C5 (amended): group-policy resolution returns a policy exactly for
names with a case-insensitively matching configuration entry that carries
a direct style, regardless of whether that entry also carries a topic
list; for every other name (in particular when every matching entry lacks
a direct style) it returns none. -/
theorem claim_C5_amended_group_policy_resolution (cfg : Config) (name : String) :
    (∀ g, get_group_config cfg name = some g →
      g ∈ cfg.groups ∧ lower g.name = lower name ∧ g.type?.isSome = true) ∧
    (get_group_config cfg name = none ↔
      ∀ g ∈ cfg.groups, lower g.name = lower name → g.type? = none) := by
  constructor
  · intro g h
    exact find_group_config_eq_some h
  · exact find_group_config_eq_none

/-- Witness for the amended C5 at the concrete fixture: "CHAT" resolves
case-insensitively to the direct-style entry "Chat". -/
theorem claim_C5_witness :
    get_group_config cfgW "CHAT" =
      some { name := "Chat", type? := some "logistics", topics := [],
             default_type? := none, threshold? := some 1 } ∧
    (({ name := "Chat", type? := some "logistics", topics := [],
        default_type? := none, threshold? := some 1 } : GroupEntry) ∈ cfgW.groups ∧
     lower "Chat" = lower "CHAT" ∧ (some "logistics" : Option String).isSome = true) :=
  ⟨by decide, (claim_C5_amended_group_policy_resolution cfgW "CHAT").1 _ (by decide)⟩

/-- C6: partial-failure isolation.  If, among all summarisation outcomes
of a request, exactly one — the attempt for topic `t` of forum `fname` —
raised (its outcome is `(none, some e)` and every other outcome carries no
error), then the digest's error list is exactly `[e]`, `e` is the
formatted string identifying the (forum, topic) pair, and the summaries
list is exactly the records of all the other outcomes, unaffected by the
failure.  `get_digest` is a total function, so the request always yields a
`DigestResponse`. -/
theorem claim_C6_partial_failure_isolation
    (cfg : Config) (env : Env) (tg : TgClient) (fname : String) (fid : Int)
    (t : TopicItem) (e : String)
    (pre post : List (Option SummaryRecord × Option String))
    (hdecomp : all_outcomes cfg env tg = pre ++ (none, some e) :: post)
    (hpre : ∀ o ∈ pre, o.2 = none) (hpost : ∀ o ∈ post, o.2 = none)
    (hfail : process_topic cfg env tg fname fid t = (none, some e)) :
    (get_digest cfg env tg).errors = [e] ∧
    (∃ m, e = "Error summarising " ++ fname ++ "/" ++ t.title ++ ": " ++ m) ∧
    (get_digest cfg env tg).summaries =
      pre.filterMap Prod.fst ++ post.filterMap Prod.fst := by
  refine ⟨?_, ?_, ?_⟩
  · simp only [get_digest]
    rw [hdecomp, List.filterMap_append]
    have h1 : pre.filterMap Prod.snd = [] := List.filterMap_eq_nil_iff.mpr hpre
    have h2 : post.filterMap Prod.snd = [] := List.filterMap_eq_nil_iff.mpr hpost
    simp [h1, h2]
  · exact process_topic_snd_eq_some (by rw [hfail])
  · simp only [get_digest]
    rw [hdecomp, List.filterMap_append]
    simp

/-- Configuration for the C6 witness scenario: forum "Team" with two
eligible topics ("Eng" and "Ops", threshold 1) and an eligible plain group
"Chat". -/
def cfg6 : Config :=
  { groups :=
      [ { name := "Team", type? := none,
          topics :=
            [ { name := "Eng", type? := some "technical", threshold? := some 1 },
              { name := "Ops", type? := some "logistics", threshold? := some 1 } ],
          default_type? := none, threshold? := none },
        { name := "Chat", type? := some "logistics", topics := [],
          default_type? := none, threshold? := some 1 } ]
    excluded_groups := []
    show_dm_counts? := some true }

/-- Conversation source for the C6 witness scenario: the fetch for topic
"Eng" (id 1) raises, every other fetch succeeds. -/
def tg6 : TgClient :=
  { unread :=
      { dms := []
        groups := [{ id := 200, name := "Chat", unread_count := 3 }]
        supergroups := [{ id := 100, name := "Team", unread_count := 9 }] }
    topics := fun fid =>
      if fid == 100 then
        [ { id := 1, title := "Eng", unread_count? := some 5 },
          { id := 2, title := "Ops", unread_count? := some 4 } ]
      else []
    topic_messages := fun _ tid => if tid == 1 then Except.error "boom" else Except.ok [mW]
    chat_messages := fun _ => Except.ok [mW] }

/-- Witness for C6 at the concrete scenario: exactly the "Eng" fetch
raises; the digest carries exactly one error naming Team/Eng, and the
sibling topic "Ops" and the group "Chat" still produce their summary
records. -/
theorem claim_C6_witness :
    (get_digest cfg6 envW tg6).errors = ["Error summarising Team/Eng: boom"] ∧
    (∃ m, "Error summarising Team/Eng: boom" =
      "Error summarising " ++ "Team" ++ "/" ++ "Eng" ++ ": " ++ m) ∧
    (get_digest cfg6 envW tg6).summaries =
      ([] : List (Option SummaryRecord × Option String)).filterMap Prod.fst ++
      ([ (some { group := "Team", topic := "Ops", type := "logistics",
                 message_count := 1, summary := "SUMMARY" }, none),
         (some { group := "Chat", topic := "(all)", type := "logistics",
                 message_count := 1, summary := "SUMMARY" }, none) ] :
        List (Option SummaryRecord × Option String)).filterMap Prod.fst :=
  claim_C6_partial_failure_isolation cfg6 envW tg6 "Team" 100
    { id := 1, title := "Eng", unread_count? := some 5 }
    "Error summarising Team/Eng: boom"
    []
    [ (some { group := "Team", topic := "Ops", type := "logistics",
              message_count := 1, summary := "SUMMARY" }, none),
      (some { group := "Chat", topic := "(all)", type := "logistics",
              message_count := 1, summary := "SUMMARY" }, none) ]
    (by decide) (by decide) (by decide) (by decide)

/-- C7: for every non-empty message list and every style tag outside
{technical, memes, logistics, invites, skip}, `summarise` generates via
the logistics prompt template; and any summary record the assembler
appends for a topic reports, in its `type` field, the literal configured
tag of the resolved topic policy (so the fallback changes only the prompt,
never the reported metadata). -/
theorem claim_C7_unknown_style_fallback :
    (∀ (env : Env) (msgs : List Msg) (tname sty : String),
      sty ∉ (["technical", "memes", "logistics", "invites", "skip"] : List String) →
      msgs ≠ [] →
      summarise env msgs tname sty =
        Except.map some
          (env.llm (logistics_prompt env tname (format_messages_for_prompt msgs)))) ∧
    (∀ (cfg : Config) (env : Env) (tg : TgClient) (fname : String) (fid : Int)
       (t : TopicItem) (tc : TopicEntry) (r : SummaryRecord),
      get_topic_config cfg fname t.title = some tc →
      (process_topic cfg env tg fname fid t).1 = some r →
      r.type = tc.type?.getD "skip") := by
  constructor
  · intro env msgs tname sty hnot hne
    simp only [List.mem_cons, List.not_mem_nil, or_false, not_or] at hnot
    obtain ⟨h1, h2, h3, h4, h5⟩ := hnot
    have e1 : (sty == "technical") = false := beq_eq_false_iff_ne.mpr h1
    have e2 : (sty == "memes") = false := beq_eq_false_iff_ne.mpr h2
    have e3 : (sty == "logistics") = false := beq_eq_false_iff_ne.mpr h3
    have e4 : (sty == "invites") = false := beq_eq_false_iff_ne.mpr h4
    have e5 : (sty == "skip") = false := beq_eq_false_iff_ne.mpr h5
    simp [summarise, summarise_logistics, e1, e2, e3, e4, e5, hne]
  · intro cfg env tg fname fid t tc r hcfg h
    obtain ⟨-, -, -, ⟨tc', hcfg', htype⟩, -⟩ := process_topic_fst_eq_some h
    rw [hcfg] at hcfg'
    cases Option.some.inj hcfg'
    exact htype

/-- Configuration for the C7 witness: topic "Lol" of forum "Fun" is
configured with the unknown style tag "bogus-style". -/
def cfg7 : Config :=
  { groups :=
      [ { name := "Fun", type? := none,
          topics := [{ name := "Lol", type? := some "bogus-style", threshold? := some 1 }],
          default_type? := none, threshold? := none } ]
    excluded_groups := []
    show_dm_counts? := some true }

/-- Conversation source for the C7 witness. -/
def tg7 : TgClient :=
  { unread :=
      { dms := [], groups := [],
        supergroups := [{ id := 400, name := "Fun", unread_count := 5 }] }
    topics := fun _ => [{ id := 41, title := "Lol", unread_count? := some 5 }]
    topic_messages := fun _ _ => Except.ok [mW]
    chat_messages := fun _ => Except.ok [] }

/-- Witness for C7: with the unknown tag "bogus-style", generation goes
through the logistics template and the appended record's `type` field is
the literal string "bogus-style". -/
theorem claim_C7_witness :
    ("bogus-style" ∉ (["technical", "memes", "logistics", "invites", "skip"] : List String)) ∧
    ([mW] ≠ ([] : List Msg)) ∧
    (summarise envW [mW] "Lol" "bogus-style" =
      Except.map some
        (envW.llm (logistics_prompt envW "Lol" (format_messages_for_prompt [mW])))) ∧
    (get_topic_config cfg7 "Fun" "Lol" =
      some { name := "Lol", type? := some "bogus-style", threshold? := some 1 }) ∧
    ((process_topic cfg7 envW tg7 "Fun" 400
        { id := 41, title := "Lol", unread_count? := some 5 }).1 =
      some { group := "Fun", topic := "Lol", type := "bogus-style",
             message_count := 1, summary := "SUMMARY" }) ∧
    ({ group := "Fun", topic := "Lol", type := "bogus-style",
       message_count := 1, summary := "SUMMARY" } : SummaryRecord).type =
      ({ name := "Lol", type? := some "bogus-style", threshold? := some 1 } :
        TopicEntry).type?.getD "skip" :=
  ⟨by decide, by decide,
   claim_C7_unknown_style_fallback.1 envW [mW] "Lol" "bogus-style" (by decide) (by decide),
   by decide, by decide,
   claim_C7_unknown_style_fallback.2 cfg7 envW tg7 "Fun" 400
     { id := 41, title := "Lol", unread_count? := some 5 }
     { name := "Lol", type? := some "bogus-style", threshold? := some 1 }
     { group := "Fun", topic := "Lol", type := "bogus-style",
       message_count := 1, summary := "SUMMARY" }
     (by decide) (by decide)⟩

/-- C8: `summarise` with the style tag "skip" returns the explicit absence
`Option.none` (not an empty string) for every message list; with any
non-skip style and an empty message list it returns that style's fixed
placeholder string.  Both facts hold for every environment, i.e.
independently of the generation backend — it is never invoked. -/
theorem claim_C8_skip_and_empty_short_circuit (env : Env) (tname : String) :
    (∀ msgs : List Msg, summarise env msgs tname "skip" = Except.ok none) ∧
    (∀ sty : String, sty ≠ "skip" →
      summarise env ([] : List Msg) tname sty =
        Except.ok (some
          (if sty == "memes" then "No memes to report."
           else if sty == "invites" then "No invites to report."
           else "No messages to summarise."))) := by
  constructor
  · intro msgs
    simp [summarise]
  · intro sty hne
    have e5 : (sty == "skip") = false := beq_eq_false_iff_ne.mpr hne
    by_cases h1 : sty = "technical"
    · subst h1
      simp [summarise, summarise_technical, Except.map]
    · by_cases h2 : sty = "memes"
      · subst h2
        simp [summarise, summarise_memes, Except.map]
      · by_cases h3 : sty = "logistics"
        · subst h3
          simp [summarise, summarise_logistics, Except.map]
        · by_cases h4 : sty = "invites"
          · subst h4
            simp [summarise, summarise_invites, Except.map]
          · simp [summarise, summarise_logistics, Except.map, e5,
              beq_eq_false_iff_ne.mpr h1, beq_eq_false_iff_ne.mpr h2,
              beq_eq_false_iff_ne.mpr h3, beq_eq_false_iff_ne.mpr h4]

/-- Witness for C8: "skip" yields the explicit absence on a non-empty
list, and the non-skip style "memes" on an empty list yields its fixed
placeholder. -/
theorem claim_C8_witness :
    summarise envW [mW] "X" "skip" = Except.ok none ∧
    ("memes" ≠ "skip") ∧
    summarise envW ([] : List Msg) "X" "memes" =
      Except.ok (some
        (if "memes" == "memes" then "No memes to report."
         else if "memes" == "invites" then "No invites to report."
         else "No messages to summarise.")) :=
  ⟨(claim_C8_skip_and_empty_short_circuit envW "X").1 [mW], by decide,
   (claim_C8_skip_and_empty_short_circuit envW "X").2 "memes" (by decide)⟩

/-- C9: when the direct-message visibility flag is false the digest's
`dms` count list is empty, whatever direct messages the source reports;
and the digest's summaries and errors are invariant under arbitrary
replacement of the reported direct messages — for every configuration and
source state no summarisation outcome ever depends on (or is attempted
for) a direct-message conversation. -/
theorem claim_C9_dm_visibility (cfg : Config) (env : Env) (tg : TgClient)
    (dms2 : List ChatItem) :
    (cfg.show_dm_counts?.getD true = false →
      (get_digest cfg env tg).message_counts.dms = []) ∧
    ((get_digest cfg env { tg with unread := { tg.unread with dms := dms2 } }).summaries =
       (get_digest cfg env tg).summaries ∧
     (get_digest cfg env { tg with unread := { tg.unread with dms := dms2 } }).errors =
       (get_digest cfg env tg).errors) := by
  refine ⟨?_, rfl, rfl⟩
  intro h
  simp [get_digest, h]

/-- Witness for C9 at the concrete fixture: the flag is false, the `dms`
count list is empty although the source reports an unread direct message,
and replacing the direct messages changes neither summaries nor errors. -/
theorem claim_C9_witness :
    cfgW.show_dm_counts?.getD true = false ∧
    (get_digest cfgW envW tgW).message_counts.dms = [] ∧
    ((get_digest cfgW envW
        { tgW with unread :=
            { tgW.unread with dms := [{ id := 9, name := "Bob", unread_count := 5 }] } }).summaries =
      (get_digest cfgW envW tgW).summaries ∧
     (get_digest cfgW envW
        { tgW with unread :=
            { tgW.unread with dms := [{ id := 9, name := "Bob", unread_count := 5 }] } }).errors =
      (get_digest cfgW envW tgW).errors) :=
  ⟨by decide,
   (claim_C9_dm_visibility cfgW envW tgW
      [{ id := 9, name := "Bob", unread_count := 5 }]).1 (by decide),
   (claim_C9_dm_visibility cfgW envW tgW
      [{ id := 9, name := "Bob", unread_count := 5 }]).2⟩

/-- C10: if the fetched message window for a topic or group is empty, the
assembler appends neither a summary record nor an error entry (the
generator's "no messages" placeholder path is never even reached);
conversely every produced summary record reports exactly the length of a
successfully fetched non-empty window, so every record in a digest has
`message_count ≥ 1`. -/
theorem claim_C10_empty_window_no_record (cfg : Config) (env : Env) (tg : TgClient) :
    (∀ (fname : String) (fid : Int) (t : TopicItem),
      tg.topic_messages fid t.id = Except.ok [] →
      process_topic cfg env tg fname fid t = (none, none)) ∧
    (∀ g : ChatItem, tg.chat_messages g.id = Except.ok [] →
      process_group cfg env tg g = (none, none)) ∧
    (∀ (fname : String) (fid : Int) (t : TopicItem) (r : SummaryRecord) (o : Option String),
      process_topic cfg env tg fname fid t = (some r, o) →
      ∃ msgs, tg.topic_messages fid t.id = Except.ok msgs ∧
        r.message_count = msgs.length ∧ 1 ≤ msgs.length) ∧
    (∀ (g : ChatItem) (r : SummaryRecord) (o : Option String),
      process_group cfg env tg g = (some r, o) →
      ∃ msgs, tg.chat_messages g.id = Except.ok msgs ∧
        r.message_count = msgs.length ∧ 1 ≤ msgs.length) ∧
    (∀ s ∈ (get_digest cfg env tg).summaries, 1 ≤ s.message_count) := by
  refine ⟨?_, ?_, ?_, ?_, ?_⟩
  · intro fname fid t hmsg
    cases hconf : is_configured_group cfg fname with
    | false => exact process_topic_of_not_configured hconf
    | true =>
      cases hcfg : get_topic_config cfg fname t.title with
      | none => simp [process_topic, hconf, hcfg]
      | some tc =>
        cases hsk : (tc.type?.getD "skip" == "skip") with
        | true => simp [process_topic, hconf, hcfg, hsk]
        | false =>
          cases hthr : decide (t.unread_count?.getD 0 < tc.threshold?.getD 1) with
          | true => simp [process_topic, hconf, hcfg, hsk, of_decide_eq_true hthr]
          | false =>
            simp [process_topic, hconf, hcfg, hsk, of_decide_eq_false hthr, hmsg]
  · intro g hmsg
    cases hexc : is_excluded_group cfg g.name with
    | true => exact process_group_of_excluded hexc
    | false =>
      cases hcfg : get_group_config cfg g.name with
      | none => simp [process_group, hexc, hcfg]
      | some gc =>
        cases hsk : (gc.type?.getD "skip" == "skip") with
        | true => simp [process_group, hexc, hcfg, hsk]
        | false =>
          cases hthr : decide (g.unread_count < gc.threshold?.getD 1) with
          | true => simp [process_group, hexc, hcfg, hsk, of_decide_eq_true hthr]
          | false =>
            simp [process_group, hexc, hcfg, hsk, of_decide_eq_false hthr, hmsg]
  · intro fname fid t r o h
    obtain ⟨-, -, -, -, msgs, hm, hlen, hne⟩ := process_topic_fst_eq_some (by rw [h])
    exact ⟨msgs, hm, hlen, List.length_pos.mpr hne⟩
  · intro g r o h
    obtain ⟨-, -, -, -, msgs, hm, hlen, hne⟩ := process_group_fst_eq_some (by rw [h])
    exact ⟨msgs, hm, hlen, List.length_pos.mpr hne⟩
  · intro s hs
    obtain ⟨o, ho, hfst⟩ := mem_summaries_iff.mp hs
    rcases outcome_cases ho with ⟨f, hf, hexc, t, ht, rfl⟩ | ⟨g, hg, rfl⟩
    · obtain ⟨-, -, -, -, msgs, -, hlen, hne⟩ := process_topic_fst_eq_some hfst
      rw [hlen]
      exact List.length_pos.mpr hne
    · obtain ⟨-, -, -, -, msgs, -, hlen, hne⟩ := process_group_fst_eq_some hfst
      rw [hlen]
      exact List.length_pos.mpr hne

/-- Witness for C10 at the concrete fixture: the empty window of topic
"Random" and of group "Secret" produce nothing; the record for "Eng"
reports the length of its one-message window; every record in the digest
has a positive message count. -/
theorem claim_C10_witness :
    (tgW.topic_messages 100 12 = Except.ok [] ∧
     process_topic cfgW envW tgW "Team" 100
       { id := 12, title := "Random", unread_count? := some 10 } = (none, none)) ∧
    (tgW.chat_messages 201 = Except.ok [] ∧
     process_group cfgW envW tgW { id := 201, name := "Secret", unread_count := 9 } =
       (none, none)) ∧
    (process_topic cfgW envW tgW "Team" 100
       { id := 11, title := "Eng", unread_count? := some 5 } =
       (some { group := "Team", topic := "Eng", type := "technical",
               message_count := 1, summary := "SUMMARY" }, none) ∧
     ∃ msgs, tgW.topic_messages 100 11 = Except.ok msgs ∧
       ({ group := "Team", topic := "Eng", type := "technical",
          message_count := 1, summary := "SUMMARY" } : SummaryRecord).message_count =
         msgs.length ∧ 1 ≤ msgs.length) ∧
    (∀ s ∈ (get_digest cfgW envW tgW).summaries, 1 ≤ s.message_count) :=
  ⟨⟨rfl,
    (claim_C10_empty_window_no_record cfgW envW tgW).1 "Team" 100
      { id := 12, title := "Random", unread_count? := some 10 } rfl⟩,
   ⟨rfl,
    (claim_C10_empty_window_no_record cfgW envW tgW).2.1
      { id := 201, name := "Secret", unread_count := 9 } rfl⟩,
   ⟨by decide,
    (claim_C10_empty_window_no_record cfgW envW tgW).2.2.1 "Team" 100
      { id := 11, title := "Eng", unread_count? := some 5 }
      { group := "Team", topic := "Eng", type := "technical",
        message_count := 1, summary := "SUMMARY" } none (by decide)⟩,
   (claim_C10_empty_window_no_record cfgW envW tgW).2.2.2.2⟩
